import Mathlib

/-!
Verification of the systemd FFI shim (src/ffi/systemd/shim/src/lib.rs) and
the network-ambulance desktop shell commands
(src/ambulances/network/src-tauri/src/main.rs).

The shim is embedded shallowly: a pointer is a `Nat` (0 is the null pointer),
the wrapped native library is an abstract environment `NativeEnv` assigning a
result to every native entry point, and each exported shim function returns
both its result and the list of native calls it performed, so that
pass-through, no-op and exactly-once-release properties are visible in the
trace.
-/

namespace SysTools

/-- A raw pointer crossing the C ABI; 0 stands for the null pointer. -/
abbrev Ptr := Nat

/-- Result of a native call that writes a fresh handle through an out
parameter (sd_bus_open_system, sd_journal_open): the returned status and the
handle written, if any. -/
structure OpenOut where
  status : Int
  handleWritten : Option Ptr
  deriving DecidableEq, Repr

/-- The sd_bus_error descriptor from lib.rs lines 22-27: name and message
string pointers plus the need_free flag. -/
structure BusError where
  name : Ptr
  message : Ptr
  need_free : Int
  deriving DecidableEq, Repr

/-- Result of sd_bus_get_property_string: the returned status, what it wrote
through the error out-parameter, and what it wrote through the string
out-parameter. -/
structure GpsOut where
  status : Int
  errWritten : Option BusError
  strWritten : Option Ptr
  deriving DecidableEq, Repr

/-- Result of sd_journal_get_data: the returned status and the (pointer,
length) pair written through the out-parameters, if any. -/
structure GetDataOut where
  status : Int
  dataWritten : Option (Ptr × Nat)
  deriving DecidableEq, Repr

/-- One native call made by a shim function, with the exact argument values
passed down.  `free` is libc free, the target of systemd_shim_free_string. -/
inductive NativeCall where
  | sd_bus_open_system (bus : Ptr)
  | sd_bus_unref (bus : Ptr)
  | sd_bus_get_property_string
      (bus destination path interface member error ret : Ptr)
  | sd_bus_error_free (e : Ptr)
  | free (p : Ptr)
  | sd_journal_open (ret : Ptr) (flags : Int)
  | sd_journal_close (j : Ptr)
  | sd_journal_add_match (j : Ptr) (data : Ptr) (size : Nat)
  | sd_journal_seek_tail (j : Ptr)
  | sd_journal_previous (j : Ptr)
  | sd_journal_next (j : Ptr)
  | sd_journal_get_data (j : Ptr) (field : Ptr) (data : Ptr) (length : Ptr)
  deriving DecidableEq, Repr

/-- The wrapped native library, abstractly: one result function per extern
declaration of lib.rs lines 41-72 (plus libc free, which returns nothing and
so has no field here).  Out-parameter writes are part of the result record. -/
structure NativeEnv where
  sd_bus_open_system : Ptr → OpenOut
  sd_bus_unref : Ptr → Ptr
  sd_bus_get_property_string : Ptr → Ptr → Ptr → Ptr → Ptr → Ptr → Ptr → GpsOut
  sd_bus_error_free : Ptr → List Ptr
  sd_journal_open : Ptr → Int → OpenOut
  sd_journal_close : Ptr → Unit
  sd_journal_add_match : Ptr → Ptr → Nat → Int
  sd_journal_seek_tail : Ptr → Int
  sd_journal_previous : Ptr → Int
  sd_journal_next : Ptr → Int
  sd_journal_get_data : Ptr → Ptr → Ptr → Ptr → GetDataOut

/-- lib.rs lines 79-82: systemd_shim_bus_open_system forwards to
sd_bus_open_system. -/
def systemd_shim_bus_open_system (env : NativeEnv) (bus : Ptr) :
    OpenOut × List NativeCall :=
  (env.sd_bus_open_system bus, [NativeCall.sd_bus_open_system bus])

/-- lib.rs lines 84-87: systemd_shim_bus_unref forwards to sd_bus_unref. -/
def systemd_shim_bus_unref (env : NativeEnv) (bus : Ptr) :
    Ptr × List NativeCall :=
  (env.sd_bus_unref bus, [NativeCall.sd_bus_unref bus])

/-- lib.rs lines 89-100: systemd_shim_bus_get_property_string forwards all
seven arguments to sd_bus_get_property_string. -/
def systemd_shim_bus_get_property_string (env : NativeEnv)
    (bus destination path interface member error ret : Ptr) :
    GpsOut × List NativeCall :=
  (env.sd_bus_get_property_string bus destination path interface member error ret,
   [NativeCall.sd_bus_get_property_string bus destination path interface member error ret])

/-- lib.rs lines 102-105: systemd_shim_bus_error_free forwards to
sd_bus_error_free.  The native result is the list of heap pointers it
released. -/
def systemd_shim_bus_error_free (env : NativeEnv) (e : Ptr) :
    List Ptr × List NativeCall :=
  (env.sd_bus_error_free e, [NativeCall.sd_bus_error_free e])

/-- lib.rs lines 107-112: systemd_shim_free_string calls libc free only when
the pointer is non-null; on a null pointer it makes no native call. -/
def systemd_shim_free_string (s : Ptr) : Unit × List NativeCall :=
  if s ≠ 0 then ((), [NativeCall.free s]) else ((), [])

/-- lib.rs lines 118-124: systemd_shim_journal_open forwards to
sd_journal_open. -/
def systemd_shim_journal_open (env : NativeEnv) (journal : Ptr) (flags : Int) :
    OpenOut × List NativeCall :=
  (env.sd_journal_open journal flags, [NativeCall.sd_journal_open journal flags])

/-- lib.rs lines 126-129: systemd_shim_journal_close forwards to
sd_journal_close. -/
def systemd_shim_journal_close (env : NativeEnv) (journal : Ptr) :
    Unit × List NativeCall :=
  (env.sd_journal_close journal, [NativeCall.sd_journal_close journal])

/-- lib.rs lines 131-138: systemd_shim_journal_add_match forwards to
sd_journal_add_match. -/
def systemd_shim_journal_add_match (env : NativeEnv) (journal : Ptr)
    (data : Ptr) (len : Nat) : Int × List NativeCall :=
  (env.sd_journal_add_match journal data len,
   [NativeCall.sd_journal_add_match journal data len])

/-- lib.rs lines 140-143: systemd_shim_journal_seek_tail forwards to
sd_journal_seek_tail. -/
def systemd_shim_journal_seek_tail (env : NativeEnv) (journal : Ptr) :
    Int × List NativeCall :=
  (env.sd_journal_seek_tail journal, [NativeCall.sd_journal_seek_tail journal])

/-- lib.rs lines 145-148: systemd_shim_journal_previous forwards to
sd_journal_previous. -/
def systemd_shim_journal_previous (env : NativeEnv) (journal : Ptr) :
    Int × List NativeCall :=
  (env.sd_journal_previous journal, [NativeCall.sd_journal_previous journal])

/-- lib.rs lines 150-153: systemd_shim_journal_next forwards to
sd_journal_next. -/
def systemd_shim_journal_next (env : NativeEnv) (journal : Ptr) :
    Int × List NativeCall :=
  (env.sd_journal_next journal, [NativeCall.sd_journal_next journal])

/-- lib.rs lines 155-168: systemd_shim_journal_get_data forwards to
sd_journal_get_data. -/
def systemd_shim_journal_get_data (env : NativeEnv) (journal : Ptr)
    (field : Ptr) (data : Ptr) (len : Ptr) : GetDataOut × List NativeCall :=
  (env.sd_journal_get_data journal field data len,
   [NativeCall.sd_journal_get_data journal field data len])

/-- Claim C1 exactly as stated: EVERY exported shim function, for ALL
argument values, forwards its arguments unchanged to the matching native
function (so its trace is exactly that one call) and returns the native
result unchanged. -/
def shimPassThroughAll : Prop :=
  (∀ env bus, systemd_shim_bus_open_system env bus =
    (env.sd_bus_open_system bus, [NativeCall.sd_bus_open_system bus])) ∧
  (∀ env bus, systemd_shim_bus_unref env bus =
    (env.sd_bus_unref bus, [NativeCall.sd_bus_unref bus])) ∧
  (∀ env bus destination path interface member error ret,
    systemd_shim_bus_get_property_string env bus destination path interface member error ret =
    (env.sd_bus_get_property_string bus destination path interface member error ret,
     [NativeCall.sd_bus_get_property_string bus destination path interface member error ret])) ∧
  (∀ env e, systemd_shim_bus_error_free env e =
    (env.sd_bus_error_free e, [NativeCall.sd_bus_error_free e])) ∧
  (∀ s, systemd_shim_free_string s = ((), [NativeCall.free s])) ∧
  (∀ env journal flags, systemd_shim_journal_open env journal flags =
    (env.sd_journal_open journal flags, [NativeCall.sd_journal_open journal flags])) ∧
  (∀ env journal, systemd_shim_journal_close env journal =
    (env.sd_journal_close journal, [NativeCall.sd_journal_close journal])) ∧
  (∀ env journal data len, systemd_shim_journal_add_match env journal data len =
    (env.sd_journal_add_match journal data len,
     [NativeCall.sd_journal_add_match journal data len])) ∧
  (∀ env journal, systemd_shim_journal_seek_tail env journal =
    (env.sd_journal_seek_tail journal, [NativeCall.sd_journal_seek_tail journal])) ∧
  (∀ env journal, systemd_shim_journal_previous env journal =
    (env.sd_journal_previous journal, [NativeCall.sd_journal_previous journal])) ∧
  (∀ env journal, systemd_shim_journal_next env journal =
    (env.sd_journal_next journal, [NativeCall.sd_journal_next journal])) ∧
  (∀ env journal field data len, systemd_shim_journal_get_data env journal field data len =
    (env.sd_journal_get_data journal field data len,
     [NativeCall.sd_journal_get_data journal field data len]))

/-- C1 counterexample: the claim as stated is false, because
systemd_shim_free_string on the null pointer makes no native call at all
(lib.rs lines 107-112 guard the libc free behind a null check), so it does
not forward its argument to the matching native function there. -/
theorem c1_counterexample : ¬ shimPassThroughAll := by
  intro h
  have hf := h.2.2.2.2.1 0
  exact absurd hf (by decide)

/-- C1 (amended): every exported shim function other than free_string
forwards its arguments unchanged to the matching native function and returns
the native result unchanged, for all argument values; free_string forwards
exactly when its pointer is non-null and performs no native call on a null
pointer.  In every case the trace holds at most the single matching call, so
no buffering, batching, retry logic or status-code translation occurs in any
branch. -/
theorem c1_pass_through_amended (env : NativeEnv)
    (bus destination path interface member error ret : Ptr)
    (journal field data e s : Ptr) (len : Nat) (flags : Int) :
    systemd_shim_bus_open_system env bus =
      (env.sd_bus_open_system bus, [NativeCall.sd_bus_open_system bus]) ∧
    systemd_shim_bus_unref env bus =
      (env.sd_bus_unref bus, [NativeCall.sd_bus_unref bus]) ∧
    systemd_shim_bus_get_property_string env bus destination path interface member error ret =
      (env.sd_bus_get_property_string bus destination path interface member error ret,
       [NativeCall.sd_bus_get_property_string bus destination path interface member error ret]) ∧
    systemd_shim_bus_error_free env e =
      (env.sd_bus_error_free e, [NativeCall.sd_bus_error_free e]) ∧
    systemd_shim_journal_open env journal flags =
      (env.sd_journal_open journal flags, [NativeCall.sd_journal_open journal flags]) ∧
    systemd_shim_journal_close env journal =
      (env.sd_journal_close journal, [NativeCall.sd_journal_close journal]) ∧
    systemd_shim_journal_add_match env journal data len =
      (env.sd_journal_add_match journal data len,
       [NativeCall.sd_journal_add_match journal data len]) ∧
    systemd_shim_journal_seek_tail env journal =
      (env.sd_journal_seek_tail journal, [NativeCall.sd_journal_seek_tail journal]) ∧
    systemd_shim_journal_previous env journal =
      (env.sd_journal_previous journal, [NativeCall.sd_journal_previous journal]) ∧
    systemd_shim_journal_next env journal =
      (env.sd_journal_next journal, [NativeCall.sd_journal_next journal]) ∧
    systemd_shim_journal_get_data env journal field data ret =
      (env.sd_journal_get_data journal field data ret,
       [NativeCall.sd_journal_get_data journal field data ret]) ∧
    (s ≠ 0 → systemd_shim_free_string s = ((), [NativeCall.free s])) ∧
    (s = 0 → systemd_shim_free_string s = ((), [])) := by
  refine ⟨rfl, rfl, rfl, rfl, rfl, rfl, rfl, rfl, rfl, rfl, rfl, ?_, ?_⟩
  · intro hs
    simp [systemd_shim_free_string, hs]
  · intro hs
    simp [systemd_shim_free_string, hs]

/-- A fully inert native environment, used only to instantiate universally
quantified statements at a concrete point. -/
def env0 : NativeEnv where
  sd_bus_open_system := fun _ => { status := 0, handleWritten := some 1 }
  sd_bus_unref := fun _ => 0
  sd_bus_get_property_string := fun _ _ _ _ _ _ _ =>
    { status := 0, errWritten := none, strWritten := some 1 }
  sd_bus_error_free := fun _ => []
  sd_journal_open := fun _ _ => { status := 0, handleWritten := some 1 }
  sd_journal_close := fun _ => ()
  sd_journal_add_match := fun _ _ _ => 0
  sd_journal_seek_tail := fun _ => 0
  sd_journal_previous := fun _ => 0
  sd_journal_next := fun _ => 0
  sd_journal_get_data := fun _ _ _ _ => { status := 0, dataWritten := some (1, 1) }

/-- Witness for c1_pass_through_amended at a concrete environment and
concrete arguments, with both free_string hypotheses discharged. -/
theorem c1_pass_through_amended_witness :
    systemd_shim_free_string 7 = ((), [NativeCall.free 7]) ∧
    systemd_shim_free_string 0 = ((), []) :=
  ⟨(c1_pass_through_amended env0 1 2 3 4 5 6 7 8 9 10 11 7 12 0).2.2.2.2.2.2.2.2.2.2.2.1
      (by decide),
   (c1_pass_through_amended env0 1 2 3 4 5 6 7 8 9 10 11 0 12 0).2.2.2.2.2.2.2.2.2.2.2.2
      rfl⟩

/-- C2: free_string is a no-op on the null pointer (no release call in its
trace, and it is a total function, so it never faults), and on a non-null
pointer its trace holds the release of that exact pointer exactly once. -/
theorem c2_free_string_null_noop (s : Ptr) :
    (s = 0 → systemd_shim_free_string s = ((), [])) ∧
    (s ≠ 0 → (systemd_shim_free_string s).2 = [NativeCall.free s] ∧
      (systemd_shim_free_string s).2.count (NativeCall.free s) = 1) := by
  constructor
  · intro hs
    simp [systemd_shim_free_string, hs]
  · intro hs
    simp [systemd_shim_free_string, hs]

/-- Witness for c2_free_string_null_noop at the null pointer and at 5. -/
theorem c2_free_string_null_noop_witness :
    systemd_shim_free_string 0 = ((), []) ∧
    (systemd_shim_free_string 5).2 = [NativeCall.free 5] :=
  ⟨(c2_free_string_null_noop 0).1 rfl,
   ((c2_free_string_null_noop 5).2 (by decide)).1⟩

/-- C9: no shim function inspects, validates or branches on a handle
argument: for every handle value h (the null pointer and any stale value
included) and every environment, each handle-taking shim function passes h to
the native library unexamined, its result and trace being exactly the
forwarded native call at h. -/
theorem c9_handles_unexamined (env : NativeEnv)
    (h destination path interface member error ret field data len : Ptr)
    (size : Nat) :
    systemd_shim_bus_unref env h =
      (env.sd_bus_unref h, [NativeCall.sd_bus_unref h]) ∧
    systemd_shim_bus_get_property_string env h destination path interface member error ret =
      (env.sd_bus_get_property_string h destination path interface member error ret,
       [NativeCall.sd_bus_get_property_string h destination path interface member error ret]) ∧
    systemd_shim_bus_error_free env h =
      (env.sd_bus_error_free h, [NativeCall.sd_bus_error_free h]) ∧
    systemd_shim_journal_close env h =
      (env.sd_journal_close h, [NativeCall.sd_journal_close h]) ∧
    systemd_shim_journal_add_match env h data size =
      (env.sd_journal_add_match h data size,
       [NativeCall.sd_journal_add_match h data size]) ∧
    systemd_shim_journal_seek_tail env h =
      (env.sd_journal_seek_tail h, [NativeCall.sd_journal_seek_tail h]) ∧
    systemd_shim_journal_previous env h =
      (env.sd_journal_previous h, [NativeCall.sd_journal_previous h]) ∧
    systemd_shim_journal_next env h =
      (env.sd_journal_next h, [NativeCall.sd_journal_next h]) ∧
    systemd_shim_journal_get_data env h field data len =
      (env.sd_journal_get_data h field data len,
       [NativeCall.sd_journal_get_data h field data len]) :=
  ⟨rfl, rfl, rfl, rfl, rfl, rfl, rfl, rfl, rfl⟩

/-- Cursor position of a journal reader: before all records, on record i
(0-based, oldest first), or past the newest record. -/
inductive Cursor where
  | head
  | onRecord (i : Nat)
  | tail
  deriving DecidableEq, Repr

/-- The state of one open journal reader: how many records its (filtered)
view holds and where the cursor stands. -/
structure JournalState where
  numRecords : Nat
  cursor : Cursor
  deriving DecidableEq, Repr

/-- Modelled from the spec: sd_journal_previous of the wrapped native library
(its implementation is not in src/).  Spec 4.2: advance the cursor one record
backward; return a positive value when a record was reached, zero when no
more records exist in that direction. -/
def sd_journal_previous_model (s : JournalState) : JournalState × Int :=
  match s.cursor with
  | Cursor.head => (s, 0)
  | Cursor.onRecord i =>
      if i = 0 then (s, 0)
      else ({ s with cursor := Cursor.onRecord (i - 1) }, 1)
  | Cursor.tail =>
      if s.numRecords = 0 then ({ s with cursor := Cursor.head }, 0)
      else ({ s with cursor := Cursor.onRecord (s.numRecords - 1) }, 1)

/-- Modelled from the spec: sd_journal_next of the wrapped native library
(its implementation is not in src/).  Spec 4.2: advance the cursor one record
forward; positive when a record was reached, zero on exhaustion. -/
def sd_journal_next_model (s : JournalState) : JournalState × Int :=
  match s.cursor with
  | Cursor.tail => (s, 0)
  | Cursor.onRecord i =>
      if decide (i + 1 < s.numRecords) then
        ({ s with cursor := Cursor.onRecord (i + 1) }, 1)
      else ({ s with cursor := Cursor.tail }, 0)
  | Cursor.head =>
      if s.numRecords = 0 then ({ s with cursor := Cursor.tail }, 0)
      else ({ s with cursor := Cursor.onRecord 0 }, 1)

/-- There is a record strictly before the cursor (the record the next
backward step would reach). -/
def hasPrevRecord (s : JournalState) : Bool :=
  match s.cursor with
  | Cursor.head => false
  | Cursor.onRecord i => decide (i ≠ 0)
  | Cursor.tail => decide (s.numRecords ≠ 0)

/-- There is a record strictly after the cursor (the record the next forward
step would reach). -/
def hasNextRecord (s : JournalState) : Bool :=
  match s.cursor with
  | Cursor.head => decide (s.numRecords ≠ 0)
  | Cursor.onRecord i => decide (i + 1 < s.numRecords)
  | Cursor.tail => false

/-- Modelled from the spec: sd_bus_unref of the wrapped native library (its
implementation is not in src/).  Spec 4.1: decrement the connection's
reference count; return null once the underlying resource is fully released,
otherwise return the handle unchanged.  refs maps each live handle to its
current reference count. -/
def sd_bus_unref_model (refs : List (Ptr × Nat)) (bus : Ptr) : Ptr :=
  match refs.lookup bus with
  | some n => if 2 ≤ n then bus else 0
  | none => 0

/-- Modelled from the spec: sd_bus_error_free of the wrapped native library
(its implementation is not in src/).  Spec 4.1: release any heap memory
referenced by an error descriptor; a descriptor whose need_free flag is unset
owns nothing, so nothing is released.  The result is the list of heap
pointers released. -/
def sd_bus_error_free_model (d : BusError) : List Ptr :=
  if d.need_free ≠ 0 then
    (if d.name ≠ 0 then [d.name] else []) ++
      (if d.message ≠ 0 then [d.message] else [])
  else []

/-- The observable state of the wrapped native library: the open journal
readers, the bus handles with their reference counts, and the error
descriptors the caller handed out, each keyed by pointer. -/
structure World where
  journals : List (Ptr × JournalState)
  busRefs : List (Ptr × Nat)
  errorDescs : List (Ptr × BusError)
  deriving Repr

/-- The environment induced by a world, using the spec-modelled native
semantics; a journal call on a pointer not tracked as open fails with a
negative status, as the native library does on a bad handle. -/
def envOfWorld (w : World) : NativeEnv where
  sd_bus_open_system := fun _ => { status := 0, handleWritten := some 1 }
  sd_bus_unref := fun bus => sd_bus_unref_model w.busRefs bus
  sd_bus_get_property_string := fun _ _ _ _ _ _ _ =>
    { status := 0, errWritten := none, strWritten := some 1 }
  sd_bus_error_free := fun e =>
    match w.errorDescs.lookup e with
    | some d => sd_bus_error_free_model d
    | none => []
  sd_journal_open := fun _ _ => { status := 0, handleWritten := some 1 }
  sd_journal_close := fun _ => ()
  sd_journal_add_match := fun _ _ _ => 0
  sd_journal_seek_tail := fun j =>
    match w.journals.lookup j with
    | some _ => 0
    | none => -9
  sd_journal_previous := fun j =>
    match w.journals.lookup j with
    | some s => (sd_journal_previous_model s).2
    | none => -9
  sd_journal_next := fun j =>
    match w.journals.lookup j with
    | some s => (sd_journal_next_model s).2
    | none => -9
  sd_journal_get_data := fun _ _ _ _ => { status := 0, dataWritten := some (1, 1) }

/-- Status trichotomy of the modelled backward step on an open journal. -/
theorem sd_journal_previous_model_status (s : JournalState) :
    (0 < (sd_journal_previous_model s).2 ↔ hasPrevRecord s = true) ∧
    ((sd_journal_previous_model s).2 = 0 ↔ hasPrevRecord s = false) ∧
    0 ≤ (sd_journal_previous_model s).2 := by
  rcases s with ⟨n, c⟩
  rcases c with _ | i | _ <;>
    simp only [sd_journal_previous_model, hasPrevRecord] <;>
    (try split) <;> simp_all

/-- Status trichotomy of the modelled forward step on an open journal. -/
theorem sd_journal_next_model_status (s : JournalState) :
    (0 < (sd_journal_next_model s).2 ↔ hasNextRecord s = true) ∧
    ((sd_journal_next_model s).2 = 0 ↔ hasNextRecord s = false) ∧
    0 ≤ (sd_journal_next_model s).2 := by
  rcases s with ⟨n, c⟩
  rcases c with _ | i | _ <;>
    simp only [sd_journal_next_model, hasNextRecord] <;>
    (try split) <;> simp_all

/-- C4: on an opened journal handle, journal_previous and journal_next return
a positive status exactly when the cursor reached a record and zero exactly
when no more records exist in that direction, and (the modelled native
raising no error on an open handle) never a negative status; a negative
status occurs exactly when the handle is not an open journal, the modelled
error case. -/
theorem c4_journal_iteration_status (w : World) (j : Ptr) :
    (∀ s, w.journals.lookup j = some s →
      (0 < (systemd_shim_journal_previous (envOfWorld w) j).1 ↔
        hasPrevRecord s = true) ∧
      ((systemd_shim_journal_previous (envOfWorld w) j).1 = 0 ↔
        hasPrevRecord s = false) ∧
      0 ≤ (systemd_shim_journal_previous (envOfWorld w) j).1 ∧
      (0 < (systemd_shim_journal_next (envOfWorld w) j).1 ↔
        hasNextRecord s = true) ∧
      ((systemd_shim_journal_next (envOfWorld w) j).1 = 0 ↔
        hasNextRecord s = false) ∧
      0 ≤ (systemd_shim_journal_next (envOfWorld w) j).1) ∧
    ((systemd_shim_journal_previous (envOfWorld w) j).1 < 0 ↔
      w.journals.lookup j = none) ∧
    ((systemd_shim_journal_next (envOfWorld w) j).1 < 0 ↔
      w.journals.lookup j = none) := by
  refine ⟨?_, ?_, ?_⟩
  · intro s hs
    have hp := sd_journal_previous_model_status s
    have hn := sd_journal_next_model_status s
    simp only [systemd_shim_journal_previous, systemd_shim_journal_next,
      envOfWorld, hs]
    exact ⟨hp.1, hp.2.1, hp.2.2, hn.1, hn.2.1, hn.2.2⟩
  · simp only [systemd_shim_journal_previous, envOfWorld]
    cases hs : w.journals.lookup j with
    | none => simp
    | some s =>
        have hp := sd_journal_previous_model_status s
        simp only [hs]
        constructor
        · intro hlt
          omega
        · intro hnone
          exact absurd hnone (by simp)
  · simp only [systemd_shim_journal_next, envOfWorld]
    cases hs : w.journals.lookup j with
    | none => simp
    | some s =>
        have hn := sd_journal_next_model_status s
        simp only [hs]
        constructor
        · intro hlt
          omega
        · intro hnone
          exact absurd hnone (by simp)

/-- A concrete world: one open journal (handle 5, two records, cursor at
tail), one bus handle 3 with reference count 1, and one error descriptor at
pointer 4 that owns nothing. -/
def w0 : World where
  journals := [(5, { numRecords := 2, cursor := Cursor.tail })]
  busRefs := [(3, 1)]
  errorDescs := [(4, { name := 1, message := 2, need_free := 0 })]

/-- Witness for c4_journal_iteration_status: at world w0, journal 5 with two
records and the cursor at the tail, the backward step returns a positive
status. -/
theorem c4_journal_iteration_status_witness :
    0 < (systemd_shim_journal_previous (envOfWorld w0) 5).1 :=
  (((c4_journal_iteration_status w0 5).1
      { numRecords := 2, cursor := Cursor.tail } rfl).1).mpr (by decide)

/-- C5: through the shim, unref on a tracked bus handle returns null exactly
once the underlying resource is fully released (its reference count was 1,
so the decrement drops it to zero), and otherwise returns the very handle it
was given, unchanged. -/
theorem c5_bus_unref_release (w : World) (bus : Ptr) (n : Nat)
    (h : w.busRefs.lookup bus = some n) :
    (n ≤ 1 → systemd_shim_bus_unref (envOfWorld w) bus =
      (0, [NativeCall.sd_bus_unref bus])) ∧
    (2 ≤ n → systemd_shim_bus_unref (envOfWorld w) bus =
      (bus, [NativeCall.sd_bus_unref bus])) := by
  constructor
  · intro hn
    simp only [systemd_shim_bus_unref, envOfWorld, sd_bus_unref_model, h]
    rw [if_neg (by omega)]
  · intro hn
    simp only [systemd_shim_bus_unref, envOfWorld, sd_bus_unref_model, h]
    rw [if_pos hn]

/-- Witness for c5_bus_unref_release: in w0 handle 3 has reference count 1,
so unref returns null. -/
theorem c5_bus_unref_release_witness :
    systemd_shim_bus_unref (envOfWorld w0) 3 =
      (0, [NativeCall.sd_bus_unref 3]) :=
  (c5_bus_unref_release w0 3 1 rfl).1 (by decide)

/-- C6: through the shim, error_free on a tracked descriptor whose need_free
flag is unset releases nothing (a total no-op, so it never faults), and on a
descriptor whose flag is set it releases exactly the non-null heap strings
the descriptor references. -/
theorem c6_error_free_noop (w : World) (e : Ptr) (d : BusError)
    (h : w.errorDescs.lookup e = some d) :
    (d.need_free = 0 → systemd_shim_bus_error_free (envOfWorld w) e =
      ([], [NativeCall.sd_bus_error_free e])) ∧
    (d.need_free ≠ 0 → (systemd_shim_bus_error_free (envOfWorld w) e).1 =
      (if d.name ≠ 0 then [d.name] else []) ++
        (if d.message ≠ 0 then [d.message] else [])) := by
  constructor
  · intro hf
    simp only [systemd_shim_bus_error_free, envOfWorld, h,
      sd_bus_error_free_model, hf]
    simp
  · intro hf
    simp only [systemd_shim_bus_error_free, envOfWorld, h,
      sd_bus_error_free_model, if_pos hf]

/-- Witness for c6_error_free_noop: in w0 the descriptor at pointer 4 has
need_free unset, so error_free releases nothing. -/
theorem c6_error_free_noop_witness :
    systemd_shim_bus_error_free (envOfWorld w0) 4 =
      ([], [NativeCall.sd_bus_error_free 4]) :=
  (c6_error_free_noop w0 4 { name := 1, message := 2, need_free := 0 } rfl).1
    rfl

/-- Modelled from the spec: the contract of the native
sd_bus_get_property_string (its implementation is not in src/).  Spec 4.1: on
failure (negative status) it populates the error descriptor and leaves the
string out-parameter unwritten; on success (non-negative status) it writes a
newly heap-allocated, non-null string pointer — fresh with respect to the
already-allocated pointers — into the string out-parameter. -/
def gpsContract (env : NativeEnv) (allocated : List Ptr) : Prop :=
  ∀ bus destination path interface member error ret,
    (let o := env.sd_bus_get_property_string bus destination path interface member error ret
     (o.status < 0 → o.errWritten.isSome = true ∧ o.strWritten = none) ∧
     (0 ≤ o.status → ∃ p, p ≠ 0 ∧ p ∉ allocated ∧ o.strWritten = some p))

/-- C3: the shim's get_property_string performs exactly the forwarded native
call, and — the native library honouring its documented contract — on failure
it populates the caller's error descriptor, returns a negative status and
leaves out_string unwritten, while on success it returns a non-negative
status and writes a fresh non-null heap string pointer into out_string. -/
theorem c3_get_property_string_contract (env : NativeEnv)
    (allocated : List Ptr) (hc : gpsContract env allocated)
    (bus destination path interface member error ret : Ptr) :
    (systemd_shim_bus_get_property_string env bus destination path interface member error ret).2 =
      [NativeCall.sd_bus_get_property_string bus destination path interface member error ret] ∧
    ((systemd_shim_bus_get_property_string env bus destination path interface member error ret).1.status < 0 →
      (systemd_shim_bus_get_property_string env bus destination path interface member error ret).1.errWritten.isSome = true ∧
      (systemd_shim_bus_get_property_string env bus destination path interface member error ret).1.strWritten = none) ∧
    (0 ≤ (systemd_shim_bus_get_property_string env bus destination path interface member error ret).1.status →
      ∃ p, p ≠ 0 ∧ p ∉ allocated ∧
        (systemd_shim_bus_get_property_string env bus destination path interface member error ret).1.strWritten = some p) := by
  have h := hc bus destination path interface member error ret
  exact ⟨rfl, h.1, h.2⟩

/-- An environment whose property read always fails with status -2 and a
populated descriptor, satisfying the modelled native contract. -/
def envGpsFail : NativeEnv :=
  { env0 with
    sd_bus_get_property_string := fun _ _ _ _ _ _ _ =>
      { status := -2, errWritten := some { name := 1, message := 2, need_free := 1 },
        strWritten := none } }

/-- envGpsFail satisfies the modelled native contract for any allocation
set. -/
theorem envGpsFail_contract : gpsContract envGpsFail [] := by
  intro bus destination path interface member error ret
  constructor
  · intro _
    exact ⟨rfl, rfl⟩
  · intro hge
    have hs : (envGpsFail.sd_bus_get_property_string bus destination path
        interface member error ret).status = -2 := rfl
    omega

/-- Witness for c3_get_property_string_contract: at envGpsFail the failing
call populates the error descriptor and leaves out_string unwritten. -/
theorem c3_get_property_string_contract_witness :
    (systemd_shim_bus_get_property_string envGpsFail 1 2 3 4 5 6 7).1.errWritten.isSome = true ∧
    (systemd_shim_bus_get_property_string envGpsFail 1 2 3 4 5 6 7).1.strWritten = none :=
  (c3_get_property_string_contract envGpsFail [] envGpsFail_contract
    1 2 3 4 5 6 7).2.1 (by decide)

/-!
Desktop shell commands of src/ambulances/network/src-tauri/src/main.rs.
The backend subprocess is an abstract spawn function from program and
argument list to either a spawn error or a captured process output; the
serde_json syntax layer is an abstract function from the stdout text to an
optional JSON value.  Each command returns its result together with the list
of subprocess invocations it performed.
-/

/-- A JSON value, as produced by the syntax layer. -/
inductive Json where
  | null
  | bool (b : Bool)
  | num (n : Int)
  | str (s : String)
  | arr (elems : List Json)
  | obj (fields : List (String × Json))

/-- main.rs lines 9-17: the DiagnosticResult struct; version and tool are
strings, the four section fields are arbitrary JSON values. -/
structure DiagnosticResult where
  version : String
  tool : String
  dns : Json
  routing : Json
  connectivity : Json
  interfaces : Json

/-- main.rs lines 19-26: the RepairResult struct. -/
structure RepairResult where
  version : String
  tool : String
  dns_repair : Json
  interface_repair : Json
  routing_repair : Json

/-- The captured output of a finished subprocess: whether its exit status was
success, its standard output, and its standard error (both as text;
from_utf8_lossy keeps the stderr text as is here). -/
structure ProcOutput where
  success : Bool
  stdout : String
  stderr : String

/-- First field of the given name in a JSON object, as serde looks fields up
by name. -/
def getField (fields : List (String × Json)) (key : String) : Option Json :=
  fields.lookup key

/-- The string content of an optional JSON value, when it is a JSON string;
a String-typed serde field accepts exactly this case. -/
def stringField (o : Option Json) : Option String :=
  match o with
  | some (Json.str s) => some s
  | _ => none

/-- Deserialization of a JSON value into DiagnosticResult, following the
serde derive on the struct: the value must be an object, every field must be
present, version and tool must be JSON strings; extra fields are ignored. -/
def deserializeDiagnostic (j : Json) : Except String DiagnosticResult :=
  match j with
  | Json.obj fields =>
    match stringField (getField fields "version"),
        stringField (getField fields "tool"),
        getField fields "dns", getField fields "routing",
        getField fields "connectivity", getField fields "interfaces" with
    | some v, some t, some dns, some routing, some connectivity,
        some interfaces =>
      Except.ok { version := v, tool := t, dns := dns, routing := routing,
                  connectivity := connectivity, interfaces := interfaces }
    | _, _, _, _, _, _ => Except.error "invalid DiagnosticResult"
  | _ => Except.error "expected an object"

/-- Deserialization of a JSON value into RepairResult, following the serde
derive on the struct. -/
def deserializeRepair (j : Json) : Except String RepairResult :=
  match j with
  | Json.obj fields =>
    match stringField (getField fields "version"),
        stringField (getField fields "tool"),
        getField fields "dns_repair", getField fields "interface_repair",
        getField fields "routing_repair" with
    | some v, some t, some dns_repair, some interface_repair,
        some routing_repair =>
      Except.ok { version := v, tool := t, dns_repair := dns_repair,
                  interface_repair := interface_repair,
                  routing_repair := routing_repair }
    | _, _, _, _, _ => Except.error "invalid RepairResult"
  | _ => Except.error "expected an object"

/-- The top-level shape the diagnostics command accepts: an object holding
version and tool as JSON strings and the dns, routing, connectivity and
interfaces fields. -/
def isDiagShape (j : Json) : Bool :=
  match j with
  | Json.obj fields =>
    (stringField (getField fields "version")).isSome &&
    (stringField (getField fields "tool")).isSome &&
    (getField fields "dns").isSome && (getField fields "routing").isSome &&
    (getField fields "connectivity").isSome &&
    (getField fields "interfaces").isSome
  | _ => false

/-- The top-level shape the repair command accepts: an object holding version
and tool as JSON strings and the dns_repair, interface_repair and
routing_repair fields. -/
def isRepairShape (j : Json) : Bool :=
  match j with
  | Json.obj fields =>
    (stringField (getField fields "version")).isSome &&
    (stringField (getField fields "tool")).isSome &&
    (getField fields "dns_repair").isSome &&
    (getField fields "interface_repair").isSome &&
    (getField fields "routing_repair").isSome
  | _ => false

/-- True exactly on an ok result. -/
def isOkE {ε α : Type} : Except ε α → Bool
  | Except.ok _ => true
  | Except.error _ => false

/-- The backend executable path, main.rs lines 31 and 62. -/
def backendProgram : String := "./bin/network-ambulance-d"

/-- main.rs lines 29-47: run_diagnostics.  jsonOf is the serde_json syntax
layer (none on malformed stdout); spawn runs a subprocess and either fails
(Command output error, mapped to a message) or yields the captured output.
The second component records every subprocess invocation performed. -/
def run_diagnostics (jsonOf : String → Option Json)
    (spawn : String → List String → Except String ProcOutput) :
    Except String DiagnosticResult × List (String × List String) :=
  let inv := (backendProgram, ["diagnose", "--json"])
  match spawn backendProgram ["diagnose", "--json"] with
  | Except.error e =>
      (Except.error ("Failed to execute D backend: " ++ e), [inv])
  | Except.ok output =>
      if output.success = false then
        (Except.error ("D backend failed: " ++ output.stderr), [inv])
      else
        match jsonOf output.stdout with
        | none => (Except.error ("Failed to parse JSON: syntax"), [inv])
        | some j =>
            match deserializeDiagnostic j with
            | Except.error e =>
                (Except.error ("Failed to parse JSON: " ++ e), [inv])
            | Except.ok r => (Except.ok r, [inv])

/-- main.rs lines 49-78: run_repair.  rootMode is the result of querying the
permission bits of "/" (an error if the metadata call failed); the privilege
precheck of lines 52-60 runs before any subprocess is spawned. -/
def run_repair (jsonOf : String → Option Json)
    (spawn : String → List String → Except String ProcOutput)
    (rootMode : Except String Nat) (target : String) :
    Except String RepairResult × List (String × List String) :=
  match rootMode with
  | Except.error e => (Except.error e, [])
  | Except.ok mode =>
    if mode &&& 0o700 ≠ 0o700 then
      (Except.error "Repair operations require administrator privileges", [])
    else
      let inv := (backendProgram, ["repair", target, "--json"])
      match spawn backendProgram ["repair", target, "--json"] with
      | Except.error e =>
          (Except.error ("Failed to execute D backend: " ++ e), [inv])
      | Except.ok output =>
          if output.success = false then
            (Except.error ("D backend repair failed: " ++ output.stderr), [inv])
          else
            match jsonOf output.stdout with
            | none => (Except.error ("Failed to parse JSON: syntax"), [inv])
            | some j =>
                match deserializeRepair j with
                | Except.error e =>
                    (Except.error ("Failed to parse JSON: " ++ e), [inv])
                | Except.ok r => (Except.ok r, [inv])

/-- A JSON value deserializes into DiagnosticResult exactly when it has the
diagnostics shape. -/
theorem deserializeDiagnostic_ok_iff (j : Json) :
    isOkE (deserializeDiagnostic j) = isDiagShape j := by
  cases j <;> simp only [deserializeDiagnostic, isDiagShape, isOkE]
  case obj fields =>
    cases stringField (getField fields "version") <;>
    cases stringField (getField fields "tool") <;>
    cases getField fields "dns" <;>
    cases getField fields "routing" <;>
    cases getField fields "connectivity" <;>
    cases getField fields "interfaces" <;>
    simp [isOkE]

/-- A JSON value deserializes into RepairResult exactly when it has the
repair shape. -/
theorem deserializeRepair_ok_iff (j : Json) :
    isOkE (deserializeRepair j) = isRepairShape j := by
  cases j <;> simp only [deserializeRepair, isRepairShape, isOkE]
  case obj fields =>
    cases stringField (getField fields "version") <;>
    cases stringField (getField fields "tool") <;>
    cases getField fields "dns_repair" <;>
    cases getField fields "interface_repair" <;>
    cases getField fields "routing_repair" <;>
    simp [isOkE]

/-- run_diagnostics performs exactly one subprocess invocation, with the
diagnose arguments. -/
theorem run_diagnostics_trace (jsonOf : String → Option Json)
    (spawn : String → List String → Except String ProcOutput) :
    (run_diagnostics jsonOf spawn).2 =
      [(backendProgram, ["diagnose", "--json"])] := by
  simp only [run_diagnostics]
  cases hs : spawn backendProgram ["diagnose", "--json"] with
  | error e => rfl
  | ok output =>
      dsimp only
      cases hsucc : output.success with
      | false => rfl
      | true =>
          cases hj : jsonOf output.stdout with
          | none => rfl
          | some j =>
              dsimp only
              cases hd : deserializeDiagnostic j <;> rfl

/-- When the privilege precheck passes, run_repair performs exactly one
subprocess invocation, with the repair arguments. -/
theorem run_repair_trace (jsonOf : String → Option Json)
    (spawn : String → List String → Except String ProcOutput)
    (mode : Nat) (target : String) (hm : mode &&& 0o700 = 0o700) :
    (run_repair jsonOf spawn (Except.ok mode) target).2 =
      [(backendProgram, ["repair", target, "--json"])] := by
  simp only [run_repair, hm]
  simp only [ne_eq, not_true_eq_false, if_false]
  cases hs : spawn backendProgram ["repair", target, "--json"] with
  | error e => rfl
  | ok output =>
      dsimp only
      cases hsucc : output.success with
      | false => rfl
      | true =>
          cases hj : jsonOf output.stdout with
          | none => rfl
          | some j =>
              dsimp only
              cases hd : deserializeRepair j <;> rfl

/-- C7: the diagnostics command invokes the backend executable exactly once
with the arguments diagnose --json; the repair command only ever invokes it
with the arguments repair target --json; and whenever the subprocess exits
with a non-success status, the command returns an error whose message ends
with the subprocess's standard-error content. -/
theorem c7_backend_invocation (jsonOf : String → Option Json)
    (spawn : String → List String → Except String ProcOutput)
    (rootMode : Except String Nat) (target : String) :
    (run_diagnostics jsonOf spawn).2 =
      [(backendProgram, ["diagnose", "--json"])] ∧
    (∀ inv ∈ (run_repair jsonOf spawn rootMode target).2,
      inv = (backendProgram, ["repair", target, "--json"])) ∧
    (∀ output, spawn backendProgram ["diagnose", "--json"] = Except.ok output →
      output.success = false →
      (run_diagnostics jsonOf spawn).1 =
        Except.error ("D backend failed: " ++ output.stderr)) ∧
    (∀ mode output, mode &&& 0o700 = 0o700 →
      spawn backendProgram ["repair", target, "--json"] = Except.ok output →
      output.success = false →
      (run_repair jsonOf spawn (Except.ok mode) target).1 =
        Except.error ("D backend repair failed: " ++ output.stderr)) := by
  refine ⟨run_diagnostics_trace jsonOf spawn, ?_, ?_, ?_⟩
  · intro inv hinv
    cases rootMode with
    | error e => simp [run_repair] at hinv
    | ok mode =>
        by_cases hm : mode &&& 0o700 = 0o700
        · rw [run_repair_trace jsonOf spawn mode target hm] at hinv
          simpa using hinv
        · simp [run_repair, hm] at hinv
  · intro output hs hsucc
    simp [run_diagnostics, hs, hsucc]
  · intro mode output hm hs hsucc
    simp [run_repair, hm, hs, hsucc]

/-- Inert JSON layer and a spawn that always fails with stderr boom, to
instantiate the command theorems at a concrete point. -/
def jsonOf0 : String → Option Json := fun _ => none

/-- A spawn whose subprocess always exits unsuccessfully with stderr boom. -/
def spawnFail : String → List String → Except String ProcOutput :=
  fun _ _ => Except.ok { success := false, stdout := "", stderr := "boom" }

/-- Witness for c7_backend_invocation: under spawnFail the diagnostics
command surfaces the stderr content boom in its error message. -/
theorem c7_backend_invocation_witness :
    (run_diagnostics jsonOf0 spawnFail).1 =
      Except.error ("D backend failed: " ++ "boom") :=
  (c7_backend_invocation jsonOf0 spawnFail (Except.ok 448) "dns").2.2.1
    { success := false, stdout := "", stderr := "boom" } rfl rfl

/-- C8: when the backend subprocess ran and exited successfully, the command
accepts its response exactly when the standard output parses as a JSON
document of the required top-level shape (diagnostics shape for
run_diagnostics, repair shape for run_repair); any output that does not
parse into that shape leaves the result an error. -/
theorem c8_json_shape_acceptance (jsonOf : String → Option Json)
    (spawn : String → List String → Except String ProcOutput)
    (mode : Nat) (target : String) :
    (∀ output, spawn backendProgram ["diagnose", "--json"] = Except.ok output →
      output.success = true →
      (isOkE (run_diagnostics jsonOf spawn).1 = true ↔
        ∃ j, jsonOf output.stdout = some j ∧ isDiagShape j = true)) ∧
    (∀ output, mode &&& 0o700 = 0o700 →
      spawn backendProgram ["repair", target, "--json"] = Except.ok output →
      output.success = true →
      (isOkE (run_repair jsonOf spawn (Except.ok mode) target).1 = true ↔
        ∃ j, jsonOf output.stdout = some j ∧ isRepairShape j = true)) := by
  constructor
  · intro output hs hsucc
    simp only [run_diagnostics, hs, hsucc]
    cases hj : jsonOf output.stdout with
    | none => simp [isOkE]
    | some j =>
        have hiff := deserializeDiagnostic_ok_iff j
        cases hd : deserializeDiagnostic j with
        | error e =>
            rw [hd] at hiff
            simp only [isOkE] at hiff
            simp [isOkE, hd, ← hiff]
        | ok r =>
            rw [hd] at hiff
            simp only [isOkE] at hiff
            simp [isOkE, hd, ← hiff]
  · intro output hm hs hsucc
    simp only [run_repair, hm, ne_eq, not_true_eq_false, if_false, hs, hsucc]
    cases hj : jsonOf output.stdout with
    | none => simp [isOkE]
    | some j =>
        have hiff := deserializeRepair_ok_iff j
        cases hd : deserializeRepair j with
        | error e =>
            rw [hd] at hiff
            simp only [isOkE] at hiff
            simp [isOkE, hd, ← hiff]
        | ok r =>
            rw [hd] at hiff
            simp only [isOkE] at hiff
            simp [isOkE, hd, ← hiff]

/-- A JSON document with exactly the diagnostics top-level shape. -/
def diagJson : Json :=
  Json.obj [("version", Json.str "1"), ("tool", Json.str "net"),
    ("dns", Json.null), ("routing", Json.null),
    ("connectivity", Json.null), ("interfaces", Json.null)]

/-- A JSON layer that reads every stdout as diagJson. -/
def jsonOfDiag : String → Option Json := fun _ => some diagJson

/-- A spawn whose subprocess always succeeds. -/
def spawnOk : String → List String → Except String ProcOutput :=
  fun _ _ => Except.ok { success := true, stdout := "doc", stderr := "" }

/-- Witness for c8_json_shape_acceptance: a successful subprocess whose
stdout parses into the diagnostics shape is accepted. -/
theorem c8_json_shape_acceptance_witness :
    isOkE (run_diagnostics jsonOfDiag spawnOk).1 = true :=
  ((c8_json_shape_acceptance jsonOfDiag spawnOk 448 "dns").1
      { success := true, stdout := "doc", stderr := "" } rfl rfl).mpr
    ⟨diagJson, rfl, by decide⟩

/-- C10: run_repair prechecks privileges before spawning anything: when the
permission bits of the filesystem root masked with 0o700 are not exactly
0o700 it returns the administrator-privileges error and performs no
subprocess invocation; when they are, the subprocess is invoked; and the
typical mode 0o755 of the root directory passes the check. -/
theorem c10_repair_privilege_precheck (jsonOf : String → Option Json)
    (spawn : String → List String → Except String ProcOutput)
    (mode : Nat) (target : String) :
    (mode &&& 0o700 ≠ 0o700 →
      run_repair jsonOf spawn (Except.ok mode) target =
        (Except.error "Repair operations require administrator privileges",
         [])) ∧
    (mode &&& 0o700 = 0o700 →
      (run_repair jsonOf spawn (Except.ok mode) target).2 =
        [(backendProgram, ["repair", target, "--json"])]) ∧
    (0o755 : Nat) &&& 0o700 = 0o700 := by
  refine ⟨?_, ?_, by decide⟩
  · intro hm
    simp [run_repair, hm]
  · intro hm
    exact run_repair_trace jsonOf spawn mode target hm

/-- Witness for c10_repair_privilege_precheck: with root mode 0 the precheck
fails and no subprocess runs; with root mode 0o755 the subprocess is
invoked. -/
theorem c10_repair_privilege_precheck_witness :
    run_repair jsonOf0 spawnFail (Except.ok 0) "dns" =
      (Except.error "Repair operations require administrator privileges",
       []) ∧
    (run_repair jsonOf0 spawnFail (Except.ok 0o755) "dns").2 =
      [(backendProgram, ["repair", "dns", "--json"])] :=
  ⟨(c10_repair_privilege_precheck jsonOf0 spawnFail 0 "dns").1 (by decide),
   (c10_repair_privilege_precheck jsonOf0 spawnFail 0o755 "dns").2.1
     (by decide)⟩

end SysTools
